import Mathlib

/-!
Shallow embedding of `src/packages/ckeditor5-widget/src/widgetresize.js`
(the `WidgetResize` plugin): the pointer interaction observer with its
throttled mousemove stream, the focus-tracking selection walk, the
resizer registry (`attachTo`, `_getResizerByHandle`), the throttled
redraw scheduler, and the subscriptions acquired in `init` / released
in `destroy`.

Resizers themselves are external collaborators (their `begin`,
`updateSize`, `commit`, `redraw` methods live in `widgetresize/resizer.js`,
outside the embedded file); here a resizer is an opaque identifier and the
calls the coordinator makes on resizers are recorded in a trace.
-/

namespace WidgetResizeModel

/-- A call the coordinator performs on a resizer, recorded in a trace
(most recent call first). -/
inductive Action where
  | begin (r : Nat) (handle : Nat)
  | updateSize (r : Nat) (d : Nat)
  | commit (r : Nat)
  | redraw (r : Nat)
deriving DecidableEq

/-- One entry of `this.resizers`: the resizer id together with the DOM
handle elements for which its `containsHandle` predicate is true. -/
structure ResizerEntry where
  rid : Nat
  handles : List Nat
deriving DecidableEq

/-- `_getResizerByHandle(domResizeHandle)`: scan the registered resizers in
insertion order and return the first whose `containsHandle` is true
(`undefined`, i.e. `none`, when no resizer contains the handle). -/
def getResizerByHandle (reg : List ResizerEntry) (h : Nat) : Option Nat :=
  (reg.find? (fun e => e.handles.contains h)).map (·.rid)

/-- The target of a `mousedown` event: whether `Resizer.isResizeHandle`
recognizes it, and its element identity used for the registry lookup. -/
structure PressTarget where
  isHandle : Bool
  elem : Nat
deriving DecidableEq

/-- External pointer events delivered to the observer, with their (ms)
timestamps, plus `tick`, the passage of time that lets a scheduled
trailing-edge throttle timer fire. -/
inductive PEvent where
  | press (t : Nat) (target : PressTarget)
  | move (t : Nat) (d : Nat)
  | release (t : Nat)
  | tick (t : Nat)
deriving DecidableEq

/-- Whether an event is a `mousedown`. -/
def PEvent.isPress : PEvent → Bool
  | .press _ _ => true
  | _ => false

/-- Observer state: the `activeResizer` closure variable, the state of the
`throttle( ..., 16 )` wrapper around the mousemove callback (time of its
last invocation and the pending trailing-edge argument, if any), and the
trace of calls made on resizers. -/
structure ObsState where
  activeResizer : Option Nat
  throttleLastInvoke : Option Nat
  throttlePending : Option Nat
  trace : List Action
deriving DecidableEq

/-- The body of the throttled mousemove listener:
`if (activeResizer) activeResizer.updateSize(domEventData)`. -/
def invokeMoveBody (s : ObsState) (d : Nat) : ObsState :=
  match s.activeResizer with
  | some r => { s with trace := Action.updateSize r d :: s.trace }
  | none => s

/-- Modelled from the spec: lodash `throttle(fn, wait)` (an external
dependency, not part of the embedded file), the floor-interval coalescing
rate limiter with leading and trailing edges. A call in a fresh window
(never invoked, or the wait elapsed since the last invocation) invokes the
body immediately; a call inside a window stores its argument as the
pending trailing-edge argument. -/
def throttleCall (wait : Nat) (s : ObsState) (t : Nat) (d : Nat) : ObsState :=
  match s.throttleLastInvoke with
  | none =>
      { invokeMoveBody s d with throttleLastInvoke := some t, throttlePending := none }
  | some ti =>
      if ti + wait ≤ t then
        { invokeMoveBody s d with throttleLastInvoke := some t, throttlePending := none }
      else
        { s with throttlePending := some d }

/-- Modelled from the spec: the trailing edge of lodash `throttle`. When a
pending argument exists and the wait has elapsed since the last
invocation, the timer fires: the body is invoked with the pending (i.e.
temporally last) argument. -/
def throttleTick (wait : Nat) (s : ObsState) (t : Nat) : ObsState :=
  match s.throttlePending, s.throttleLastInvoke with
  | some d, some ti =>
      if ti + wait ≤ t then
        { invokeMoveBody s d with throttleLastInvoke := some t, throttlePending := none }
      else s
  | _, _ => s

/-- One step of the pointer interaction observer, the three
`this._observer.listenTo( domDocument, ... )` listeners of `init`:

* `mousedown`: if the target is not a resize handle, return; otherwise
  `activeResizer = this._getResizerByHandle( resizeHandle )`, and
  `activeResizer.begin( resizeHandle )` when the lookup found one;
* `mousemove`: the throttled (16 ms) listener forwarding to `updateSize`
  while a resizer is active;
* `mouseup`: if a resizer is active, `commit()` then `activeResizer = null`;
* `tick`: no listener runs, but a due trailing-edge throttle timer fires. -/
def obsStep (reg : List ResizerEntry) (s : ObsState) : PEvent → ObsState
  | .press _ tgt =>
      if tgt.isHandle then
        match getResizerByHandle reg tgt.elem with
        | some r =>
            { s with activeResizer := some r, trace := Action.begin r tgt.elem :: s.trace }
        | none => { s with activeResizer := none }
      else s
  | .move t d => throttleCall 16 s t d
  | .release _ =>
      match s.activeResizer with
      | some r => { s with activeResizer := none, trace := Action.commit r :: s.trace }
      | none => s
  | .tick t => throttleTick 16 s t

/-- Run the observer over a sequence of events. -/
def runObs (reg : List ResizerEntry) (s : ObsState) (evs : List PEvent) : ObsState :=
  evs.foldl (obsStep reg) s

/-- The observer state right after `init`: no active resizer, the throttle
never invoked, nothing pending, no calls made. -/
def obsInit : ObsState := ⟨none, none, none, []⟩

/-- Whether an action is an `updateSize` call. -/
def isUpdateAct : Action → Bool
  | .updateSize _ _ => true
  | _ => false

/-- Whether an action is a `begin` call. -/
def isBeginAct : Action → Bool
  | .begin _ _ => true
  | _ => false

/-- A one-resizer registry: resizer 1 owning handle 7. -/
def regA : List ResizerEntry := [⟨1, [7]⟩]

/-- A view node met by the selection walk of `_attachFocusChangeListener`:
its identity, the identities of its ancestors (`getAncestors()`), whether
`isWidget( node )` holds and whether it has the
`ck-widget_with-resizer` class. -/
structure VNode where
  id : Nat
  ancestors : List Nat
  isWidget : Bool
  hasResizerClass : Bool
deriving DecidableEq

/-- The local `isChild( element, parent )` helper: false for a null
parent, otherwise whether `parent` occurs among `element.getAncestors()`. -/
def isChild (e : VNode) : Option VNode → Bool
  | none => false
  | some p => decide (p.id ∈ e.ancestors)

/-- Lookup in an association list keyed by node / view-element identity,
first binding wins (the model of `Map.prototype.get`). -/
def rlookup : List (Nat × Nat) → Nat → Option Nat
  | [], _ => none
  | (k, v) :: rest, n => if k = n then some v else rlookup rest n

/-- One node of the selection walk. The state is
`(lastMarked, focusedResizer)`; a node that is a widget, is not a child of
`lastMarked` and has the resizer class sets
`focusedResizer = this.resizers.get( node ) || focusedResizer` and
`lastMarked = node`; any other node leaves the state unchanged. -/
def focusStep (m : List (Nat × Nat)) (st : Option VNode × Option Nat)
    (node : VNode) : Option VNode × Option Nat :=
  if node.isWidget && !(isChild node st.1) && node.hasResizerClass then
    (some node,
      match rlookup m node.id with
      | some r => some r
      | none => st.2)
  else st

/-- The focused resizer the `selection` listener of
`_attachFocusChangeListener` computes: walk all nodes of all ranges with
`lastMarked = null`, `focusedResizer = null` and return the final
`focusedResizer`. -/
def computeFocused (m : List (Nat × Nat)) (walk : List VNode) : Option Nat :=
  (walk.foldl (focusStep m) (none, none)).2

/-- State of the focus tracker and redraw scheduler:
`this._focusedResizer`, the state of the `throttle( ..., 200 )` wrapper
around `redrawFocusedResizer` (shared by the `update` and window `resize`
listeners), and the trace of `redraw` calls. -/
structure FocusState where
  focusedResizer : Option Nat
  rLastInvoke : Option Nat
  rPending : Bool
  ftrace : List Action
deriving DecidableEq

/-- The body of `redrawFocusedResizer`:
`if (this._focusedResizer) this._focusedResizer.redraw()`. -/
def redrawBody (s : FocusState) : FocusState :=
  match s.focusedResizer with
  | some r => { s with ftrace := Action.redraw r :: s.ftrace }
  | none => s

/-- Modelled from the spec: a call of the throttled (200 ms)
`redrawFocusedResizer` (leading edge invokes, an in-window call schedules
a trailing-edge invocation). -/
def redrawThrottleCall (s : FocusState) (t : Nat) : FocusState :=
  match s.rLastInvoke with
  | none => { redrawBody s with rLastInvoke := some t, rPending := false }
  | some ti =>
      if ti + 200 ≤ t then
        { redrawBody s with rLastInvoke := some t, rPending := false }
      else
        { s with rPending := true }

/-- Modelled from the spec: a due trailing-edge timer of the throttled
`redrawFocusedResizer` fires. -/
def redrawThrottleTick (s : FocusState) (t : Nat) : FocusState :=
  match s.rLastInvoke with
  | some ti =>
      if s.rPending then
        if ti + 200 ≤ t then
          { redrawBody s with rLastInvoke := some t, rPending := false }
        else s
      else s
  | none => s

/-- Events feeding the focus tracker and the redraw scheduler: a
`selection` conversion (carrying the walked nodes), an `editor.ui`
`update` notification, a window `resize` notification, and the passage of
time letting a trailing-edge timer fire. -/
inductive FEvent where
  | selectionChange (walk : List VNode)
  | uiUpdate (t : Nat)
  | windowResize (t : Nat)
  | ftick (t : Nat)
deriving DecidableEq

/-- Whether an event is a `selection` conversion. -/
def FEvent.isSelectionChange : FEvent → Bool
  | .selectionChange _ => true
  | _ => false

/-- One step of the focus tracker / redraw scheduler. On a `selection`
conversion the walk is folded, the resolved resizer (if any) is redrawn
immediately, and `this._focusedResizer` is set to the result; `update` and
window `resize` notifications both call the shared throttled
`redrawFocusedResizer`. -/
def fStep (m : List (Nat × Nat)) (s : FocusState) : FEvent → FocusState
  | .selectionChange walk =>
      let fr := computeFocused m walk
      let s1 := match fr with
        | some r => { s with ftrace := Action.redraw r :: s.ftrace }
        | none => s
      { s1 with focusedResizer := fr }
  | .uiUpdate t => redrawThrottleCall s t
  | .windowResize t => redrawThrottleCall s t
  | .ftick t => redrawThrottleTick s t

/-- Run the focus tracker over a sequence of events. -/
def runF (m : List (Nat × Nat)) (s : FocusState) (evs : List FEvent) : FocusState :=
  evs.foldl (fStep m) s

/-- State of the registry half of the plugin: a counter producing the
identity of the next `new Resizer( options )`, the `this.resizers` map
keyed by `options.viewElement`, the resizers on which `attach()` has been
called, and the resizers on which any detach was performed (the embedded
file has no detach path, so this only ever stays what it was). -/
structure AttachState where
  nextId : Nat
  registry : List (Nat × Nat)
  attached : List Nat
  detached : List Nat
deriving DecidableEq

/-- `Map.prototype.set`: replace the binding of the key when present,
append a new binding otherwise. -/
def mapSet : List (Nat × Nat) → Nat → Nat → List (Nat × Nat)
  | [], k, v => [(k, v)]
  | (k', v') :: rest, k, v =>
      if k' = k then (k, v) :: rest else (k', v') :: mapSet rest k v

/-- `attachTo( options )`: construct a new Resizer, call its `attach()`,
`this.resizers.set( options.viewElement, resizer )`, and return the
resizer. -/
def attachTo (st : AttachState) (viewElement : Nat) : Nat × AttachState :=
  let rid := st.nextId
  (rid,
    { nextId := st.nextId + 1,
      registry := mapSet st.registry viewElement rid,
      attached := rid :: st.attached,
      detached := st.detached })

/-- An event source a listener of the plugin is registered on. -/
inductive SubSource where
  | domDocument
  | domWindow
  | editorUI
  | downcastDispatcher
deriving DecidableEq

/-- The event name of a subscription the plugin acquires. -/
inductive SubEvt where
  | mousedown
  | mousemove
  | mouseup
  | selection
  | update
  | resize
deriving DecidableEq

/-- A subscription acquired during `init`: its source, its event, and
whether it was registered through `this._observer.listenTo` (as opposed
to directly via `editor.ui.on` or `downcastDispatcher.on`). -/
structure Subscription where
  source : SubSource
  evt : SubEvt
  viaObserver : Bool
deriving DecidableEq

/-- The subscriptions `init` acquires, in registration order: the three
pointer listeners on the DOM document (through the observer), the
`selection` listener `_attachFocusChangeListener` adds directly on the
downcast dispatcher, the `update` listener added directly on `editor.ui`,
and the window `resize` listener (through the observer). -/
def initSubscriptions : List Subscription :=
  [⟨.domDocument, .mousedown, true⟩,
   ⟨.domDocument, .mousemove, true⟩,
   ⟨.domDocument, .mouseup, true⟩,
   ⟨.downcastDispatcher, .selection, false⟩,
   ⟨.editorUI, .update, false⟩,
   ⟨.domWindow, .resize, true⟩]

/-- `destroy()`: the single call `this._observer.stopListening()` removes
exactly the subscriptions registered through the observer; the result is
the subscriptions that remain registered. -/
def destroySubs (subs : List Subscription) : List Subscription :=
  subs.filter (fun s => !s.viaObserver)

/-- The datum of the temporally last move of a list of
(timestamp, datum) pairs. -/
def lastDatum : List (Nat × Nat) → Option Nat
  | [] => none
  | [p] => some p.2
  | _ :: q :: ps => lastDatum (q :: ps)

theorem lastDatum_nil : lastDatum [] = none := rfl

theorem lastDatum_single (p : Nat × Nat) : lastDatum [p] = some p.2 := rfl

theorem lastDatum_cons_cons (p q : Nat × Nat) (ps : List (Nat × Nat)) :
    lastDatum (p :: q :: ps) = lastDatum (q :: ps) := rfl

theorem lastDatum_cons_isSome (p : Nat × Nat) (ps : List (Nat × Nat)) :
    ∃ dl, lastDatum (p :: ps) = some dl := by
  induction ps generalizing p with
  | nil => exact ⟨p.2, rfl⟩
  | cons q qs ih => exact ih q

theorem runObs_cons (reg : List ResizerEntry) (s : ObsState) (e : PEvent)
    (evs : List PEvent) :
    runObs reg s (e :: evs) = runObs reg (obsStep reg s e) evs := rfl

theorem obsStep_move (reg : List ResizerEntry) (s : ObsState) (t d : Nat) :
    obsStep reg s (PEvent.move t d) = throttleCall 16 s t d := rfl

theorem obsStep_tick (reg : List ResizerEntry) (s : ObsState) (t : Nat) :
    obsStep reg s (PEvent.tick t) = throttleTick 16 s t := rfl

theorem obsStep_release_none (reg : List ResizerEntry) (s : ObsState) (t : Nat)
    (h : s.activeResizer = none) :
    obsStep reg s (PEvent.release t) = s := by
  simp only [obsStep]
  rw [h]

theorem obsStep_release_some (reg : List ResizerEntry) (s : ObsState)
    (t r : Nat) (h : s.activeResizer = some r) :
    obsStep reg s (PEvent.release t) =
      { s with activeResizer := none, trace := Action.commit r :: s.trace } := by
  simp only [obsStep]
  rw [h]

theorem obsStep_press_nonhandle (reg : List ResizerEntry) (s : ObsState)
    (t : Nat) (tgt : PressTarget) (h : tgt.isHandle = false) :
    obsStep reg s (PEvent.press t tgt) = s := by
  simp only [obsStep]
  rw [h]
  simp

theorem obsStep_press_found (reg : List ResizerEntry) (s : ObsState)
    (t r : Nat) (tgt : PressTarget) (h : tgt.isHandle = true)
    (hg : getResizerByHandle reg tgt.elem = some r) :
    obsStep reg s (PEvent.press t tgt) =
      { s with activeResizer := some r,
               trace := Action.begin r tgt.elem :: s.trace } := by
  simp only [obsStep]
  rw [h, if_pos rfl, hg]

theorem obsStep_press_notfound (reg : List ResizerEntry) (s : ObsState)
    (t : Nat) (tgt : PressTarget) (h : tgt.isHandle = true)
    (hg : getResizerByHandle reg tgt.elem = none) :
    obsStep reg s (PEvent.press t tgt) = { s with activeResizer := none } := by
  simp only [obsStep]
  rw [h, if_pos rfl, hg]

theorem throttleCall_fresh (wait : Nat) (s : ObsState) (t d : Nat)
    (h : s.throttleLastInvoke = none) :
    throttleCall wait s t d =
      { invokeMoveBody s d with
          throttleLastInvoke := some t, throttlePending := none } := by
  unfold throttleCall
  rw [h]

theorem throttleCall_invoke (wait : Nat) (s : ObsState) (t d ti : Nat)
    (h : s.throttleLastInvoke = some ti) (hle : ti + wait ≤ t) :
    throttleCall wait s t d =
      { invokeMoveBody s d with
          throttleLastInvoke := some t, throttlePending := none } := by
  unfold throttleCall
  simp only [h]
  rw [if_pos hle]

theorem throttleCall_coalesce (wait : Nat) (s : ObsState) (t d ti : Nat)
    (h : s.throttleLastInvoke = some ti) (hlt : ¬ ti + wait ≤ t) :
    throttleCall wait s t d = { s with throttlePending := some d } := by
  unfold throttleCall
  simp only [h]
  rw [if_neg hlt]

theorem throttleTick_idle (wait : Nat) (s : ObsState) (t : Nat)
    (h : s.throttlePending = none) :
    throttleTick wait s t = s := by
  unfold throttleTick
  simp only [h]

theorem throttleTick_fire (wait : Nat) (s : ObsState) (t d ti : Nat)
    (hP : s.throttlePending = some d) (hL : s.throttleLastInvoke = some ti)
    (hle : ti + wait ≤ t) :
    throttleTick wait s t =
      { invokeMoveBody s d with
          throttleLastInvoke := some t, throttlePending := none } := by
  unfold throttleTick
  simp only [hP, hL]
  rw [if_pos hle]

theorem throttleTick_early (wait : Nat) (s : ObsState) (t d ti : Nat)
    (hP : s.throttlePending = some d) (hL : s.throttleLastInvoke = some ti)
    (hlt : ¬ ti + wait ≤ t) :
    throttleTick wait s t = s := by
  unfold throttleTick
  simp only [hP, hL]
  rw [if_neg hlt]

/-- Moves delivered strictly inside the open throttle window coalesce:
each only overwrites the pending trailing-edge argument, which ends up
holding the temporally last datum. -/
theorem runObs_coalesce (reg : List ResizerEntry) (b : ObsState) (t1 : Nat)
    (rest : List (Nat × Nat))
    (hI : b.throttleLastInvoke = some t1)
    (hw : ∀ p ∈ rest, p.1 < t1 + 16) :
    runObs reg b (rest.map fun p => PEvent.move p.1 p.2) =
      match lastDatum rest with
      | none => b
      | some dl => { b with throttlePending := some dl } := by
  induction rest generalizing b with
  | nil => simp [runObs, lastDatum]
  | cons p tl ih =>
    have hp : p.1 < t1 + 16 := hw p (List.mem_cons_self p tl)
    have hstep : obsStep reg b (PEvent.move p.1 p.2) =
        { b with throttlePending := some p.2 } := by
      rw [obsStep_move]
      exact throttleCall_coalesce 16 b p.1 p.2 t1 hI (by omega)
    rw [List.map_cons, runObs_cons, hstep]
    have ih' := ih { b with throttlePending := some p.2 } (by simpa using hI)
      (fun q hq => hw q (List.mem_cons_of_mem p hq))
    cases tl with
    | nil => simpa [lastDatum] using ih'
    | cons q qs =>
      obtain ⟨dl, hdl⟩ := lastDatum_cons_isSome q qs
      rw [lastDatum_cons_cons, hdl]
      rw [hdl] at ih'
      exact ih'

theorem invokeMoveBody_inactive (s : ObsState) (d : Nat)
    (h : s.activeResizer = none) : invokeMoveBody s d = s := by
  unfold invokeMoveBody
  rw [h]

theorem invokeMoveBody_active (s : ObsState) (d r : Nat)
    (h : s.activeResizer = some r) :
    invokeMoveBody s d = { s with trace := Action.updateSize r d :: s.trace } := by
  unfold invokeMoveBody
  rw [h]

/-- While no resizer is active, any press-free event sequence (moves,
releases, and firing throttle timers) makes no call on any resizer and
leaves the active slot empty. -/
theorem runObs_inactive (reg : List ResizerEntry) (s : ObsState)
    (evs : List PEvent)
    (h : s.activeResizer = none)
    (hp : ∀ e ∈ evs, e.isPress = false) :
    (runObs reg s evs).trace = s.trace ∧
    (runObs reg s evs).activeResizer = none := by
  induction evs generalizing s with
  | nil => exact ⟨rfl, h⟩
  | cons e tl ih =>
    have hstep : (obsStep reg s e).trace = s.trace ∧
        (obsStep reg s e).activeResizer = none := by
      cases e with
      | press t tgt =>
        have := hp _ (List.mem_cons_self _ tl)
        simp [PEvent.isPress] at this
      | move t d =>
        rw [obsStep_move]
        cases hL : s.throttleLastInvoke with
        | none =>
          rw [throttleCall_fresh 16 s t d hL, invokeMoveBody_inactive s d h]
          exact ⟨rfl, h⟩
        | some ti =>
          by_cases hle : ti + 16 ≤ t
          · rw [throttleCall_invoke 16 s t d ti hL hle,
              invokeMoveBody_inactive s d h]
            exact ⟨rfl, h⟩
          · rw [throttleCall_coalesce 16 s t d ti hL hle]
            exact ⟨rfl, h⟩
      | release t =>
        rw [obsStep_release_none reg s t h]
        exact ⟨rfl, h⟩
      | tick t =>
        rw [obsStep_tick]
        cases hP : s.throttlePending with
        | none =>
          rw [throttleTick_idle 16 s t hP]
          exact ⟨rfl, h⟩
        | some d =>
          cases hL : s.throttleLastInvoke with
          | none =>
            have : throttleTick 16 s t = s := by
              unfold throttleTick
              simp only [hP, hL]
            rw [this]
            exact ⟨rfl, h⟩
          | some ti =>
            by_cases hle : ti + 16 ≤ t
            · rw [throttleTick_fire 16 s t d ti hP hL hle,
                invokeMoveBody_inactive s d h]
              exact ⟨rfl, h⟩
            · rw [throttleTick_early 16 s t d ti hP hL hle]
              exact ⟨rfl, h⟩
    have ihr := ih (obsStep reg s e) hstep.2
      (fun e' he' => hp e' (List.mem_cons_of_mem e he'))
    rw [runObs_cons]
    exact ⟨ihr.1.trans hstep.1, ihr.2⟩

/-- Claim C1, counterexample. A press activates resizer 1, then two moves
arrive inside a single 16 ms throttle window (timestamps 0 and 5, data 1
and 2), and time passes to the window boundary. The trace records two
`updateSize` calls attributable to that window: the leading-edge
invocation ran with the first move's datum (1, not the temporally last
datum 2), and the trailing-edge invocation at the boundary ran with the
last datum. So `updateSize` is neither invoked at most once for the
window, nor does the in-window invocation use the last move's data. -/
theorem c1_throttle_counterexample :
    (runObs regA obsInit
        [PEvent.press 0 ⟨true, 7⟩, PEvent.move 0 1, PEvent.move 5 2,
         PEvent.tick 16]).trace =
      [Action.updateSize 1 2, Action.updateSize 1 1, Action.begin 1 7] ∧
    ((runObs regA obsInit
        [PEvent.press 0 ⟨true, 7⟩, PEvent.move 0 1, PEvent.move 5 2,
         PEvent.tick 16]).trace.filter isUpdateAct).length = 2 := by
  decide

/-- Claim C1, amended. While resizer `r` is active and the throttle has
not been invoked before, a burst of moves starting at `t1` and staying
strictly inside the 16 ms window produces exactly one immediate
(leading-edge) `updateSize` with the first move's datum; the remaining
moves coalesce, and when the timer fires at the window boundary the
trailing edge produces exactly one further `updateSize` with the
temporally last move's datum (none, if there was only one move). At most
two `updateSize` calls are therefore attributable to the window and the
last move's datum is never lost. -/
theorem c1_throttle_window (reg : List ResizerEntry) (s : ObsState)
    (r t1 d1 : Nat) (rest : List (Nat × Nat))
    (hA : s.activeResizer = some r)
    (hI : s.throttleLastInvoke = none)
    (hw : ∀ p ∈ rest, p.1 < t1 + 16) :
    (runObs reg s (((t1, d1) :: rest).map fun p => PEvent.move p.1 p.2)).trace
        = Action.updateSize r d1 :: s.trace ∧
    (runObs reg s
        (((t1, d1) :: rest).map fun p => PEvent.move p.1 p.2)).activeResizer
        = some r ∧
    (obsStep reg
        (runObs reg s (((t1, d1) :: rest).map fun p => PEvent.move p.1 p.2))
        (PEvent.tick (t1 + 16))).trace
        = match lastDatum rest with
          | none => Action.updateSize r d1 :: s.trace
          | some dl =>
              Action.updateSize r dl :: Action.updateSize r d1 :: s.trace := by
  have hb : obsStep reg s (PEvent.move t1 d1) =
      { s with trace := Action.updateSize r d1 :: s.trace,
               throttleLastInvoke := some t1, throttlePending := none } := by
    rw [obsStep_move, throttleCall_fresh 16 s t1 d1 hI,
      invokeMoveBody_active s d1 r hA]
  have hrun : runObs reg s (((t1, d1) :: rest).map fun p => PEvent.move p.1 p.2)
      = match lastDatum rest with
        | none =>
            { s with trace := Action.updateSize r d1 :: s.trace,
                     throttleLastInvoke := some t1, throttlePending := none }
        | some dl =>
            { s with trace := Action.updateSize r d1 :: s.trace,
                     throttleLastInvoke := some t1,
                     throttlePending := some dl } := by
    rw [List.map_cons, runObs_cons, hb]
    exact runObs_coalesce reg _ t1 rest rfl hw
  cases hld : lastDatum rest with
  | none =>
    rw [hld] at hrun
    rw [hrun]
    refine ⟨rfl, hA, ?_⟩
    rw [obsStep_tick, throttleTick_idle 16 _ _ rfl]
  | some dl =>
    rw [hld] at hrun
    have hrun2 : runObs reg s
        (((t1, d1) :: rest).map fun p => PEvent.move p.1 p.2) =
        { s with trace := Action.updateSize r d1 :: s.trace,
                 throttleLastInvoke := some t1,
                 throttlePending := some dl } := hrun
    rw [hrun2]
    refine ⟨rfl, hA, ?_⟩
    rw [obsStep_tick,
      throttleTick_fire 16 _ (t1 + 16) dl t1 rfl rfl (Nat.le_refl _),
      invokeMoveBody_active
        { s with trace := Action.updateSize r d1 :: s.trace,
                 throttleLastInvoke := some t1, throttlePending := some dl }
        dl r hA]

/-- Claim C1, witness for the amended theorem: resizer 1 active, fresh
throttle, moves (0, datum 1) and (5, datum 2) in one window, timer fired
at 16. -/
theorem c1_throttle_window_witness :
    (runObs regA (⟨some 1, none, none, []⟩ : ObsState)
        (([(0, 1), (5, 2)] : List (Nat × Nat)).map
          fun p => PEvent.move p.1 p.2)).trace
        = Action.updateSize 1 1 :: ([] : List Action) ∧
    (runObs regA (⟨some 1, none, none, []⟩ : ObsState)
        (([(0, 1), (5, 2)] : List (Nat × Nat)).map
          fun p => PEvent.move p.1 p.2)).activeResizer = some 1 ∧
    (obsStep regA
        (runObs regA (⟨some 1, none, none, []⟩ : ObsState)
          (([(0, 1), (5, 2)] : List (Nat × Nat)).map
            fun p => PEvent.move p.1 p.2))
        (PEvent.tick (0 + 16))).trace
        = match lastDatum [(5, 2)] with
          | none => Action.updateSize 1 1 :: ([] : List Action)
          | some dl =>
              Action.updateSize 1 dl :: Action.updateSize 1 1
                :: ([] : List Action) :=
  c1_throttle_window regA ⟨some 1, none, none, []⟩ 1 0 1 [(5, 2)] rfl rfl
    (by decide)

/-- Claim C3: the active slot is a single optional reference, so after any
event at most one resizer is active; a press adds at most one `begin` call
to the trace; and after a release the active slot is always empty. -/
theorem c3_single_active (reg : List ResizerEntry) (s : ObsState) (e : PEvent)
    (t : Nat) (tgt : PressTarget) :
    (obsStep reg s e).activeResizer.toList.length ≤ 1 ∧
    ((obsStep reg s (PEvent.press t tgt)).trace.filter isBeginAct).length
        ≤ (s.trace.filter isBeginAct).length + 1 ∧
    (obsStep reg s (PEvent.release t)).activeResizer = none := by
  refine ⟨?_, ?_, ?_⟩
  · cases h : (obsStep reg s e).activeResizer <;> simp
  · cases hh : tgt.isHandle with
    | false =>
      rw [obsStep_press_nonhandle reg s t tgt hh]
      exact Nat.le_succ _
    | true =>
      cases hg : getResizerByHandle reg tgt.elem with
      | none =>
        rw [obsStep_press_notfound reg s t tgt hh hg]
        exact Nat.le_succ _
      | some r =>
        rw [obsStep_press_found reg s t r tgt hh hg]
        simp [List.filter_cons, isBeginAct]
  · cases hA : s.activeResizer with
    | none =>
      rw [obsStep_release_none reg s t hA]
      exact hA
    | some r =>
      rw [obsStep_release_some reg s t r hA]

/-- Claim C4, counterexample. While resizer 1 is active, a press lands on
a recognized handle (element 7) that no registered resizer contains: no
`begin` is invoked, but the active slot does not retain its previous
value `some 1` — the unconditional assignment
`activeResizer = this._getResizerByHandle( resizeHandle )` clears it. -/
theorem c4_press_counterexample :
    (obsStep [] (⟨some 1, none, none, []⟩ : ObsState)
        (PEvent.press 0 ⟨true, 7⟩)).activeResizer = none ∧
    (obsStep [] (⟨some 1, none, none, []⟩ : ObsState)
        (PEvent.press 0 ⟨true, 7⟩)).trace = [] ∧
    (⟨some 1, none, none, []⟩ : ObsState).activeResizer = some 1 := by
  decide

/-- Claim C4, amended. A press on a recognized resize-handle element for
which the registry lookup resolves no resizer invokes no `begin`, and sets
the active-resizer slot to the empty lookup result: the slot is cleared,
not retained. -/
theorem c4_press_orphan_handle (reg : List ResizerEntry) (s : ObsState)
    (t : Nat) (tgt : PressTarget)
    (h1 : tgt.isHandle = true)
    (h2 : getResizerByHandle reg tgt.elem = none) :
    obsStep reg s (PEvent.press t tgt) = { s with activeResizer := none } :=
  obsStep_press_notfound reg s t tgt h1 h2

/-- Claim C4, witness: pressing orphan handle 9 while resizer 1 is active,
against the empty registry. -/
theorem c4_press_orphan_handle_witness :
    obsStep [] (⟨some 1, none, none, []⟩ : ObsState)
        (PEvent.press 0 ⟨true, 9⟩)
      = { (⟨some 1, none, none, []⟩ : ObsState) with activeResizer := none } :=
  c4_press_orphan_handle [] ⟨some 1, none, none, []⟩ 0 ⟨true, 9⟩ rfl rfl

/-- Claim C6: a release with an empty active slot leaves the state
entirely unchanged (no `commit`), and a release with an active resizer
appends exactly one `commit` on it and clears the slot, whatever the rest
of the state is. -/
theorem c6_release (reg : List ResizerEntry) (s : ObsState) (t : Nat) :
    (s.activeResizer = none → obsStep reg s (PEvent.release t) = s) ∧
    (∀ r : Nat, s.activeResizer = some r →
      obsStep reg s (PEvent.release t) =
        { s with activeResizer := none,
                 trace := Action.commit r :: s.trace }) := by
  constructor
  · intro h
    exact obsStep_release_none reg s t h
  · intro r h
    exact obsStep_release_some reg s t r h

/-- Claim C6, witness: a release with the slot empty is the identity, and
a release while resizer 1 is active commits it and clears the slot. -/
theorem c6_release_witness :
    obsStep [] (⟨none, none, none, []⟩ : ObsState) (PEvent.release 3)
        = (⟨none, none, none, []⟩ : ObsState) ∧
    obsStep [] (⟨some 1, none, none, []⟩ : ObsState) (PEvent.release 3)
        = (⟨none, none, none, [Action.commit 1]⟩ : ObsState) :=
  ⟨(c6_release [] ⟨none, none, none, []⟩ 3).1 rfl,
   (c6_release [] ⟨some 1, none, none, []⟩ 3).2 1 rfl⟩

/-- Claim C7: a release while resizer `r` is active commits `r` and
empties the active slot, and afterwards any press-free event sequence —
moves and firing throttle timers included, in particular a trailing-edge
timer whose pending argument was stored before the release — invokes
`updateSize` on no resizer and leaves the slot empty. -/
theorem c7_after_commit (reg : List ResizerEntry) (s : ObsState) (r t : Nat)
    (evs : List PEvent)
    (hA : s.activeResizer = some r)
    (hp : ∀ e ∈ evs, e.isPress = false) :
    (obsStep reg s (PEvent.release t)).activeResizer = none ∧
    (obsStep reg s (PEvent.release t)).trace = Action.commit r :: s.trace ∧
    (runObs reg (obsStep reg s (PEvent.release t)) evs).trace
        = Action.commit r :: s.trace ∧
    (runObs reg (obsStep reg s (PEvent.release t)) evs).activeResizer
        = none := by
  have hrel : obsStep reg s (PEvent.release t) =
      { s with activeResizer := none,
               trace := Action.commit r :: s.trace } :=
    obsStep_release_some reg s t r hA
  rw [hrel]
  have hrest := runObs_inactive reg
    { s with activeResizer := none, trace := Action.commit r :: s.trace }
    evs rfl hp
  exact ⟨rfl, rfl, hrest.1, hrest.2⟩

/-- Claim C7, witness: resizer 1 is active with a trailing-edge argument
(datum 5) already pending from before; after the release at 3, the timer
fires at 16 and a further move arrives at 20, and no `updateSize` is
recorded. -/
theorem c7_after_commit_witness :
    (obsStep regA (⟨some 1, some 0, some 5, []⟩ : ObsState)
        (PEvent.release 3)).activeResizer = none ∧
    (obsStep regA (⟨some 1, some 0, some 5, []⟩ : ObsState)
        (PEvent.release 3)).trace = Action.commit 1 :: ([] : List Action) ∧
    (runObs regA
        (obsStep regA (⟨some 1, some 0, some 5, []⟩ : ObsState)
          (PEvent.release 3))
        [PEvent.tick 16, PEvent.move 20 9]).trace
        = Action.commit 1 :: ([] : List Action) ∧
    (runObs regA
        (obsStep regA (⟨some 1, some 0, some 5, []⟩ : ObsState)
          (PEvent.release 3))
        [PEvent.tick 16, PEvent.move 20 9]).activeResizer = none :=
  c7_after_commit regA ⟨some 1, some 0, some 5, []⟩ 1 3
    [PEvent.tick 16, PEvent.move 20 9] rfl (by decide)

theorem focusStep_notQualifying (m : List (Nat × Nat))
    (st : Option VNode × Option Nat) (n : VNode)
    (h : (n.isWidget && n.hasResizerClass) = false) :
    focusStep m st n = st := by
  unfold focusStep
  cases hw : n.isWidget with
  | false => simp [hw]
  | true =>
    cases hc : n.hasResizerClass with
    | false => simp [hw, hc]
    | true =>
      rw [hw, hc] at h
      simp at h

theorem focusStep_skip (m : List (Nat × Nat)) (st : Option VNode × Option Nat)
    (n : VNode) (hc : isChild n st.1 = true) :
    focusStep m st n = st := by
  unfold focusStep
  rw [hc]
  simp

/-- Folding nodes that are each either non-qualifying or a descendant of
the marked node `w` leaves the walk state unchanged. -/
theorem foldl_focus_skip (m : List (Nat × Nat)) (w : VNode) (fr : Option Nat)
    (rest : List VNode)
    (h : ∀ n ∈ rest, (n.isWidget && n.hasResizerClass) = true →
      w.id ∈ n.ancestors) :
    rest.foldl (focusStep m) (some w, fr) = (some w, fr) := by
  induction rest with
  | nil => rfl
  | cons n tl ih =>
    rw [List.foldl_cons]
    have hstep : focusStep m (some w, fr) n = (some w, fr) := by
      cases hq : (n.isWidget && n.hasResizerClass) with
      | false => exact focusStep_notQualifying m _ n hq
      | true =>
        refine focusStep_skip m _ n ?_
        have hm := h n (List.mem_cons_self n tl) hq
        simp [isChild, hm]
    rw [hstep]
    exact ih (fun n' h' hq => h n' (List.mem_cons_of_mem n h') hq)

/-- Folding a walk with no qualifying node leaves the state unchanged. -/
theorem foldl_focus_id (m : List (Nat × Nat)) (walk : List VNode)
    (st : Option VNode × Option Nat)
    (h : ∀ n ∈ walk, (n.isWidget && n.hasResizerClass) = false) :
    walk.foldl (focusStep m) st = st := by
  induction walk generalizing st with
  | nil => rfl
  | cons n tl ih =>
    rw [List.foldl_cons,
      focusStep_notQualifying m st n (h n (List.mem_cons_self n tl))]
    exact ih st (fun n' h' => h n' (List.mem_cons_of_mem n h'))

theorem runF_cons (m : List (Nat × Nat)) (s : FocusState) (e : FEvent)
    (evs : List FEvent) :
    runF m s (e :: evs) = runF m (fStep m s e) evs := rfl

theorem redrawBody_none (s : FocusState) (h : s.focusedResizer = none) :
    redrawBody s = s := by
  unfold redrawBody
  rw [h]

theorem redrawCall_fresh (s : FocusState) (t : Nat)
    (h : s.rLastInvoke = none) :
    redrawThrottleCall s t =
      { redrawBody s with rLastInvoke := some t, rPending := false } := by
  unfold redrawThrottleCall
  rw [h]

theorem redrawCall_invoke (s : FocusState) (t ti : Nat)
    (h : s.rLastInvoke = some ti) (hle : ti + 200 ≤ t) :
    redrawThrottleCall s t =
      { redrawBody s with rLastInvoke := some t, rPending := false } := by
  unfold redrawThrottleCall
  simp only [h]
  rw [if_pos hle]

theorem redrawCall_coalesce (s : FocusState) (t ti : Nat)
    (h : s.rLastInvoke = some ti) (hlt : ¬ ti + 200 ≤ t) :
    redrawThrottleCall s t = { s with rPending := true } := by
  unfold redrawThrottleCall
  simp only [h]
  rw [if_neg hlt]

theorem redrawTick_none (s : FocusState) (t : Nat)
    (h : s.rLastInvoke = none) :
    redrawThrottleTick s t = s := by
  unfold redrawThrottleTick
  simp only [h]

theorem redrawTick_notPending (s : FocusState) (t ti : Nat)
    (hL : s.rLastInvoke = some ti) (hP : s.rPending = false) :
    redrawThrottleTick s t = s := by
  unfold redrawThrottleTick
  simp only [hL, hP]
  simp

theorem redrawTick_early (s : FocusState) (t ti : Nat)
    (hL : s.rLastInvoke = some ti) (hP : s.rPending = true)
    (hlt : ¬ ti + 200 ≤ t) :
    redrawThrottleTick s t = s := by
  unfold redrawThrottleTick
  simp only [hL, hP, if_true]
  rw [if_neg hlt]

theorem redrawTick_fire (s : FocusState) (t ti : Nat)
    (hL : s.rLastInvoke = some ti) (hP : s.rPending = true)
    (hle : ti + 200 ≤ t) :
    redrawThrottleTick s t =
      { redrawBody s with rLastInvoke := some t, rPending := false } := by
  unfold redrawThrottleTick
  simp only [hL, hP, if_true]
  rw [if_pos hle]

/-- While no resizer is focused, any sequence of `update`, window
`resize` and timer events redraws nothing and keeps the reference null. -/
theorem runF_unfocused (m : List (Nat × Nat)) (s : FocusState)
    (evs : List FEvent)
    (h : s.focusedResizer = none)
    (hs : ∀ e ∈ evs, e.isSelectionChange = false) :
    (runF m s evs).ftrace = s.ftrace ∧
    (runF m s evs).focusedResizer = none := by
  induction evs generalizing s with
  | nil => exact ⟨rfl, h⟩
  | cons e tl ih =>
    have hstep : (fStep m s e).ftrace = s.ftrace ∧
        (fStep m s e).focusedResizer = none := by
      cases e with
      | selectionChange walk =>
        have := hs _ (List.mem_cons_self _ tl)
        simp [FEvent.isSelectionChange] at this
      | uiUpdate t =>
        show (redrawThrottleCall s t).ftrace = s.ftrace ∧
          (redrawThrottleCall s t).focusedResizer = none
        cases hL : s.rLastInvoke with
        | none =>
          rw [redrawCall_fresh s t hL, redrawBody_none s h]
          exact ⟨rfl, h⟩
        | some ti =>
          by_cases hle : ti + 200 ≤ t
          · rw [redrawCall_invoke s t ti hL hle, redrawBody_none s h]
            exact ⟨rfl, h⟩
          · rw [redrawCall_coalesce s t ti hL hle]
            exact ⟨rfl, h⟩
      | windowResize t =>
        show (redrawThrottleCall s t).ftrace = s.ftrace ∧
          (redrawThrottleCall s t).focusedResizer = none
        cases hL : s.rLastInvoke with
        | none =>
          rw [redrawCall_fresh s t hL, redrawBody_none s h]
          exact ⟨rfl, h⟩
        | some ti =>
          by_cases hle : ti + 200 ≤ t
          · rw [redrawCall_invoke s t ti hL hle, redrawBody_none s h]
            exact ⟨rfl, h⟩
          · rw [redrawCall_coalesce s t ti hL hle]
            exact ⟨rfl, h⟩
      | ftick t =>
        show (redrawThrottleTick s t).ftrace = s.ftrace ∧
          (redrawThrottleTick s t).focusedResizer = none
        cases hL : s.rLastInvoke with
        | none =>
          rw [redrawTick_none s t hL]
          exact ⟨rfl, h⟩
        | some ti =>
          cases hP : s.rPending with
          | false =>
            rw [redrawTick_notPending s t ti hL hP]
            exact ⟨rfl, h⟩
          | true =>
            by_cases hle : ti + 200 ≤ t
            · rw [redrawTick_fire s t ti hL hP hle, redrawBody_none s h]
              exact ⟨rfl, h⟩
            · rw [redrawTick_early s t ti hL hP hle]
              exact ⟨rfl, h⟩
    have ihr := ih (fStep m s e) hstep.2
      (fun e' he' => hs e' (List.mem_cons_of_mem e he'))
    rw [runF_cons]
    exact ⟨ihr.1.trans hstep.1, ihr.2⟩

theorem rlookup_mapSet (mreg : List (Nat × Nat)) (k v : Nat) :
    rlookup (mapSet mreg k v) k = some v := by
  induction mreg with
  | nil => simp [mapSet, rlookup]
  | cons p rest ih =>
    obtain ⟨k', v'⟩ := p
    by_cases hk : k' = k
    · simp [mapSet, hk, rlookup]
    · simp [mapSet, hk, rlookup, ih]

/-- Claim C5, counterexample. Walked nodes: widget W1 (id 1), widget W3
(id 3, not an ancestor of anything here), then W2 (id 2), a descendant of
W1 — all three resizer-bearing and registered (resizers 10, 30, 20). W1
appears in the walk and W2, a descendant of W1, appears later, yet the
walk resolves the focused resizer to W2's resizer 20: when W2 is visited
`lastMarked` is W3, which is not one of W2's ancestors, so W2 is not
skipped. -/
theorem c5_nested_counterexample :
    computeFocused [(1, 10), (3, 30), (2, 20)]
        [⟨1, [], true, true⟩, ⟨3, [], true, true⟩, ⟨2, [1], true, true⟩]
      = some 20 ∧
    rlookup [(1, 10), (3, 30), (2, 20)] 2 = some 20 ∧
    (1 : Nat) ∈ (⟨2, [1], true, true⟩ : VNode).ancestors := by
  decide

/-- Claim C5, amended. When the walk starts at a registered
resizer-bearing widget W1 and every later qualifying node is a descendant
of W1 (W2 among them), the focused resizer resolves to W1's resizer and
in particular never to the resizer of a nested descendant widget. -/
theorem c5_outer_widget_wins (m : List (Nat × Nat)) (w1 : VNode)
    (r1 r2 : Nat) (rest : List VNode)
    (hq : (w1.isWidget && w1.hasResizerClass) = true)
    (hr : rlookup m w1.id = some r1)
    (hrest : ∀ n ∈ rest, (n.isWidget && n.hasResizerClass) = true →
      w1.id ∈ n.ancestors)
    (hne : r2 ≠ r1) :
    computeFocused m (w1 :: rest) = some r1 ∧
    computeFocused m (w1 :: rest) ≠ some r2 := by
  obtain ⟨hw, hc⟩ := Bool.and_eq_true_iff.mp hq
  have h1 : focusStep m (none, none) w1 = (some w1, some r1) := by
    unfold focusStep
    simp [isChild, hw, hc, hr]
  have hfold : computeFocused m (w1 :: rest) = some r1 := by
    unfold computeFocused
    rw [List.foldl_cons, h1, foldl_focus_skip m w1 (some r1) rest hrest]
  refine ⟨hfold, ?_⟩
  rw [hfold]
  intro hcontra
  exact hne (Option.some.inj hcontra).symm

/-- Claim C5, witness for the amended theorem: W1 (id 1, resizer 10)
followed by its nested widget W2 (id 2, resizer 20). -/
theorem c5_outer_widget_wins_witness :
    computeFocused [(1, 10), (2, 20)]
        ((⟨1, [], true, true⟩ : VNode) :: [⟨2, [1], true, true⟩])
      = some 10 ∧
    computeFocused [(1, 10), (2, 20)]
        ((⟨1, [], true, true⟩ : VNode) :: [⟨2, [1], true, true⟩])
      ≠ some 20 :=
  c5_outer_widget_wins [(1, 10), (2, 20)] ⟨1, [], true, true⟩ 10 20
    [⟨2, [1], true, true⟩] (by decide) (by decide) (by decide) (by decide)

/-- Claim C8: a selection conversion whose walk contains no
resizer-bearing widget sets the focused-resizer reference to null without
any immediate redraw, and any subsequent sequence of UI-update, window
resize and throttle-timer events redraws no resizer while the reference
stays null. -/
theorem c8_no_widget_clears_focus (m : List (Nat × Nat)) (s : FocusState)
    (walk : List VNode) (evs : List FEvent)
    (hW : ∀ n ∈ walk, (n.isWidget && n.hasResizerClass) = false)
    (hE : ∀ e ∈ evs, e.isSelectionChange = false) :
    (fStep m s (FEvent.selectionChange walk)).focusedResizer = none ∧
    (fStep m s (FEvent.selectionChange walk)).ftrace = s.ftrace ∧
    (runF m (fStep m s (FEvent.selectionChange walk)) evs).ftrace
        = s.ftrace ∧
    (runF m (fStep m s (FEvent.selectionChange walk)) evs).focusedResizer
        = none := by
  have hcf : computeFocused m walk = none := by
    unfold computeFocused
    rw [foldl_focus_id m walk (none, none) hW]
  have hsel : fStep m s (FEvent.selectionChange walk) =
      { s with focusedResizer := none } := by
    show (let fr := computeFocused m walk
          let s1 := match fr with
            | some r => { s with ftrace := Action.redraw r :: s.ftrace }
            | none => s
          { s1 with focusedResizer := fr }) = { s with focusedResizer := none }
    rw [hcf]
  rw [hsel]
  have hrest := runF_unfocused m { s with focusedResizer := none } evs rfl hE
  exact ⟨rfl, rfl, hrest.1, hrest.2⟩

/-- Claim C8, witness: resizer 5 was focused, a selection walk over a
single non-widget node clears the reference, and a UI update, a window
resize and a due timer afterwards redraw nothing. -/
theorem c8_no_widget_clears_focus_witness :
    (fStep [] (⟨some 5, none, false, []⟩ : FocusState)
        (FEvent.selectionChange [⟨1, [], false, true⟩])).focusedResizer
      = none ∧
    (fStep [] (⟨some 5, none, false, []⟩ : FocusState)
        (FEvent.selectionChange [⟨1, [], false, true⟩])).ftrace = [] ∧
    (runF [] (fStep [] (⟨some 5, none, false, []⟩ : FocusState)
        (FEvent.selectionChange [⟨1, [], false, true⟩]))
        [FEvent.uiUpdate 10, FEvent.windowResize 30,
         FEvent.ftick 250]).ftrace = [] ∧
    (runF [] (fStep [] (⟨some 5, none, false, []⟩ : FocusState)
        (FEvent.selectionChange [⟨1, [], false, true⟩]))
        [FEvent.uiUpdate 10, FEvent.windowResize 30,
         FEvent.ftick 250]).focusedResizer = none :=
  c8_no_widget_clears_focus [] ⟨some 5, none, false, []⟩
    [⟨1, [], false, true⟩]
    [FEvent.uiUpdate 10, FEvent.windowResize 30, FEvent.ftick 250]
    (by decide) (by decide)

/-- Claim C9: `attachTo` returns the freshly constructed resizer, attaches
it and registers it under `options.viewElement`; a second call with the
same view element constructs and returns a distinct resizer and overwrites
the registry entry, while the first resizer stays attached and nothing is
ever detached. -/
theorem c9_attachTo_overwrites (st : AttachState) (k : Nat) :
    (attachTo st k).1 = st.nextId ∧
    rlookup (attachTo st k).2.registry k = some (attachTo st k).1 ∧
    (attachTo st k).1 ∈ (attachTo st k).2.attached ∧
    rlookup (attachTo (attachTo st k).2 k).2.registry k
        = some (attachTo (attachTo st k).2 k).1 ∧
    (attachTo (attachTo st k).2 k).1 ≠ (attachTo st k).1 ∧
    (attachTo st k).1 ∈ (attachTo (attachTo st k).2 k).2.attached ∧
    (attachTo (attachTo st k).2 k).2.detached = st.detached := by
  refine ⟨rfl, ?_, ?_, ?_, ?_, ?_, rfl⟩
  · exact rlookup_mapSet st.registry k st.nextId
  · exact List.mem_cons_self _ _
  · exact rlookup_mapSet (mapSet st.registry k st.nextId) k (st.nextId + 1)
  · exact Nat.succ_ne_self st.nextId
  · exact List.mem_cons_of_mem _ (List.mem_cons_self _ _)

/-- Claim C2, counterexample. After `destroy()` — which performs only
`this._observer.stopListening()` — the set of remaining subscriptions is
not empty: listeners owned by the coordinator survive. -/
theorem c2_destroy_counterexample : destroySubs initSubscriptions ≠ [] := by
  decide

/-- Claim C2, amended. `destroy()` releases exactly the subscriptions the
coordinator acquired through its observer (pointer press/move/release on
the document and the viewport-resize listener); the selection-change
listener on the downcast dispatcher and the UI-update listener on
`editor.ui`, registered directly rather than through the observer, remain
registered after `destroy()`. -/
theorem c2_destroy_scope :
    destroySubs initSubscriptions =
      [⟨SubSource.downcastDispatcher, SubEvt.selection, false⟩,
       ⟨SubSource.editorUI, SubEvt.update, false⟩] ∧
    (initSubscriptions.filter (fun sub => sub.viaObserver)).all
      (fun sub => !(destroySubs initSubscriptions).contains sub) = true := by
  decide

/-- Claim C10, counterexample. Node U (id 1) is a qualifying
resizer-bearing widget with no registry entry; D (id 2) is a
resizer-bearing descendant of U registered with resizer 20; W3 (id 3) is
a qualifying widget (resizer 30) walked between them. D is not skipped —
when D is visited `lastMarked` is W3, not U — and the walk resolves D's
resizer 20 instead of keeping the previously chosen candidate (W3's 30),
refuting that every resizer-bearing descendant of an unregistered
qualifying widget is skipped. -/
theorem c10_unregistered_counterexample :
    rlookup [(3, 30), (2, 20)] 1 = none ∧
    (1 : Nat) ∈ (⟨2, [1], true, true⟩ : VNode).ancestors ∧
    computeFocused [(3, 30), (2, 20)]
        [⟨1, [], true, true⟩, ⟨3, [], true, true⟩, ⟨2, [1], true, true⟩]
      = some 20 := by
  decide

/-- Claim C10, amended. A qualifying resizer-bearing widget U with no
registry entry still updates `lastMarked` (keeping the current candidate
resizer); consequently every later qualifying node that is a descendant
of U — walked while `lastMarked` is still U — is skipped, and the
previously chosen candidate (possibly null) is kept as the result of the
walk. -/
theorem c10_unregistered_marks (m : List (Nat × Nat)) (lm : Option VNode)
    (fr : Option Nat) (u : VNode) (rest : List VNode)
    (hq : (u.isWidget && u.hasResizerClass) = true)
    (hnc : isChild u lm = false)
    (hmiss : rlookup m u.id = none)
    (hrest : ∀ n ∈ rest, (n.isWidget && n.hasResizerClass) = true →
      u.id ∈ n.ancestors) :
    (u :: rest).foldl (focusStep m) (lm, fr) = (some u, fr) := by
  obtain ⟨hw, hc⟩ := Bool.and_eq_true_iff.mp hq
  have h1 : focusStep m (lm, fr) u = (some u, fr) := by
    unfold focusStep
    simp [hw, hc, hnc, hmiss]
  rw [List.foldl_cons, h1, foldl_focus_skip m u fr rest hrest]

/-- Claim C10, witness for the amended theorem: unregistered widget U
(id 1) walked while candidate resizer 30 is already chosen, followed by
its registered descendant (id 2, resizer 20): the descendant is skipped
and candidate 30 is kept. -/
theorem c10_unregistered_marks_witness :
    ((⟨1, [], true, true⟩ : VNode) :: [⟨2, [1], true, true⟩]).foldl
        (focusStep [(2, 20)]) (none, some 30)
      = (some ⟨1, [], true, true⟩, some 30) :=
  c10_unregistered_marks [(2, 20)] none (some 30) ⟨1, [], true, true⟩
    [⟨2, [1], true, true⟩] (by decide) (by decide) (by decide) (by decide)

end WidgetResizeModel
